import Mathlib

/-!
# Verification of the graph-model discovery and service layer

A shallow embedding, in Lean 4, of `src/utils/graph_discovery.py`,
`src/example_graph/services/graph_search_service.py` and
`src/example_graph/services/llm_graph_service.py` from the
`django-superapp-graph` repository, together with theorems settling the
behavioural claims about discovery, search, aggregation and enrichment.

Python dicts are embedded as insertion-ordered association lists; the
logging calls that the claims talk about are embedded as an explicit list
of `LogEntry` values returned alongside each function's result; exceptions
are embedded with `Except` / explicit error components.
-/

namespace GraphSpec

/-- Logging levels used by the module logger. -/
inductive LogLevel where
  | debug
  | info
  | warning
  | error
deriving DecidableEq, Repr

/-- One emitted log line: its level and its formatted message. -/
structure LogEntry where
  level : LogLevel
  msg : String
deriving DecidableEq, Repr

/-- A Python class object as the discovery engine sees it: its textual
representation `str(cls)` and its tuple of direct base classes
(`cls.__bases__`). -/
inductive PyClass where
  | mk (str_repr : String) (bases : List PyClass)

/-- `str(cls)`. -/
def PyClass.str_repr : PyClass → String
  | .mk r _ => r

/-- `cls.__bases__` (the direct bases only). -/
def PyClass.bases : PyClass → List PyClass
  | .mk _ bs => bs

/-- A top-level attribute of an imported module: either a class object
(which has `__bases__`) or any other value (which does not). -/
inductive Attr where
  | pyClass (c : PyClass)
  | nonClass

/-- The outcome of `importlib.import_module` on one candidate file:
success (yielding the module's attributes, in `dir(module)` order),
an `ImportError`, or any other exception. -/
inductive ImportResult where
  | ok (attrs : List (String × Attr))
  | importError (msg : String)
  | otherError (msg : String)

/-- A candidate `.py` file in an app's `graph/` directory: its stem and
what importing it produces. -/
structure PyFile where
  stem : String
  imported : ImportResult

/-- An installed Django app as seen by discovery: its dotted name and its
`graph/` sub-directory (`none` when the directory does not exist,
`some files` listing the non-dunder candidate `.py` files otherwise). -/
structure App where
  name : String
  graphFiles : Option (List PyFile)

/-- `pat in s` for Python strings: substring containment. -/
def containsSubstr (s pat : String) : Bool :=
  decide (pat.data <:+: s.data)

/-- `s.startswith(pat)` for Python strings. -/
def strStartsWith (s pat : String) : Bool :=
  pat.data.isPrefixOf s.data

/-- The test on line 111-112 of `graph_discovery.py`:
`any('neomodel' in str(base) for base in attr.__bases__)`. -/
def isNeomodelClass (c : PyClass) : Bool :=
  c.bases.any (fun b => containsSubstr b.str_repr "neomodel")

/-- `GraphModelDiscovery._extract_neomodel_classes`: walk the module's
attributes and keep those that are classes one of whose direct bases'
textual representation contains `'neomodel'`.  (The `logger.debug` line
per found class is not modelled.) -/
def _extract_neomodel_classes (attrs : List (String × Attr)) :
    List (String × PyClass) :=
  attrs.filterMap (fun p =>
    match p.2 with
    | .pyClass c => if isNeomodelClass c then some (p.1, c) else none
    | .nonClass => none)

/-- The models discovered for one app: file stem ↦ (class name ↦ class). -/
abbrev AppModels := List (String × List (String × PyClass))

/-- The `for py_file in graph_path.glob('*.py')` loop of
`_discover_app_graph_models` (lines 72-93): skip dunder files, import each
remaining file, extract neomodel classes on success (recording the module
only when it contributed classes), log a warning on `ImportError` and an
error on any other exception — neither exception propagates. -/
def discoverFiles (appName : String) : List PyFile → AppModels × List LogEntry
  | [] => ([], [])
  | f :: fs =>
    let rest := discoverFiles appName fs
    if strStartsWith f.stem "__" then rest
    else
      match f.imported with
      | .ok attrs =>
        let models := _extract_neomodel_classes attrs
        if models.isEmpty then rest
        else
          ((f.stem, models) :: rest.1,
           LogEntry.mk .debug
             ("Found " ++ toString models.length ++ " graph models in "
               ++ appName ++ ".graph." ++ f.stem) :: rest.2)
      | .importError e =>
        (rest.1,
         LogEntry.mk .warning
           ("Failed to import " ++ appName ++ ".graph." ++ f.stem ++ ": " ++ e)
           :: rest.2)
      | .otherError e =>
        (rest.1,
         LogEntry.mk .error
           ("Error processing " ++ appName ++ ".graph." ++ f.stem ++ ": " ++ e)
           :: rest.2)

/-- `GraphModelDiscovery._discover_app_graph_models`: when the app has no
`graph/` directory, return an empty mapping after a debug log; otherwise
scan the directory's files. -/
def _discover_app_graph_models (app : App) : AppModels × List LogEntry :=
  match app.graphFiles with
  | none => ([], [LogEntry.mk .debug ("No graph folder found in " ++ app.name)])
  | some files => discoverFiles app.name files

/-- The app loop of `discover_graph_models` (lines 38-46): keep the apps
whose dotted name contains the substring `'superapp.apps.'`, discover each
kept app's models, and record the app only when it contributed models. -/
def discoverAll : List App → List (String × AppModels)
  | [] => []
  | a :: rest =>
    if containsSubstr a.name "superapp.apps." then
      let models := (_discover_app_graph_models a).1
      if models.isEmpty then discoverAll rest
      else (a.name, models) :: discoverAll rest
    else discoverAll rest

/-- The mutable state of a `GraphModelDiscovery` instance. -/
structure GraphModelDiscovery where
  discovered_models : List (String × AppModels)
  discovered_relationships : List (String × AppModels)

/-- `GraphModelDiscovery.__init__`: both registries start empty. -/
def GraphModelDiscovery.init : GraphModelDiscovery :=
  { discovered_models := [], discovered_relationships := [] }

/-- `GraphModelDiscovery.discover_graph_models`: compute the discovered
mapping from the installed apps and assign it to `self.discovered_models`
(a plain assignment, not a merge), returning it as well. -/
def discover_graph_models (env : List App) (st : GraphModelDiscovery) :
    List (String × AppModels) × GraphModelDiscovery :=
  let discovered := discoverAll env
  (discovered, { st with discovered_models := discovered })

/-- `GraphModelDiscovery.get_models_by_app`:
`self.discovered_models.get(app_name, {})`.  Python's `dict.get` never
inserts, so the state is returned unchanged. -/
def get_models_by_app (st : GraphModelDiscovery) (app_name : String) :
    AppModels × GraphModelDiscovery :=
  ((List.lookup app_name st.discovered_models).getD [], st)

/-- `GraphModelDiscovery.register_models`: one `logger.info` line per
discovered `(app, module, model)` triple; nothing else happens, so the
state is returned unchanged. -/
def register_models (st : GraphModelDiscovery) :
    List LogEntry × GraphModelDiscovery :=
  (st.discovered_models.flatMap (fun app =>
      app.2.flatMap (fun modFile =>
        modFile.2.map (fun model =>
          LogEntry.mk .info
            ("Registered graph model: " ++ app.1 ++ "." ++ modFile.1
              ++ "." ++ model.1)))),
   st)

/-- The total number of discovered classes in a registry: one per
`(app, module, model)` triple. -/
def totalModelCount (d : List (String × AppModels)) : Nat :=
  (d.map (fun app => (app.2.map (fun modFile => modFile.2.length)).sum)).sum

/-- True when importing the file raised (either kind of exception). -/
def PyFile.importFails (f : PyFile) : Bool :=
  match f.imported with
  | .ok _ => false
  | .importError _ => true
  | .otherError _ => true

mutual

/-- The transitive ancestors of a class: its direct bases together with
all their ancestors.  (Used only to state the spec's reading of
"ancestry chain"; the code inspects direct bases only.) -/
def PyClass.ancestors : PyClass → List PyClass
  | .mk _ bs => bs ++ ancestorsList bs

/-- The ancestors of every class in a list, concatenated. -/
def ancestorsList : List PyClass → List PyClass
  | [] => []
  | c :: cs => PyClass.ancestors c ++ ancestorsList cs

end

/-- Modelled from the spec's words (§4.1 step 6): a symbol is an entity
class when at least one ancestor in its ancestry chain has a textual
representation containing the marker `'neomodel'`. -/
def entityClassPerSpecAncestry (c : PyClass) : Bool :=
  c.ancestors.any (fun a => containsSubstr a.str_repr "neomodel")

/-! ## Python values and dict semantics for the service layer -/

/-- A Python/JSON value as the services manipulate them. -/
inductive PyVal where
  | str (s : String)
  | int (n : Int)
  | num (q : Rat)
  | bool (b : Bool)
  | list (xs : List PyVal)
  | dict (d : List (String × PyVal))
  | noneVal

/-- Structural equality on `PyVal`, mirroring Python `==` on JSON-shaped
values. -/
def PyVal.beq : PyVal → PyVal → Bool
  | .str a, .str b => a == b
  | .int a, .int b => a == b
  | .num a, .num b => a == b
  | .bool a, .bool b => a == b
  | .list xs, .list ys => beqList xs ys
  | .dict xs, .dict ys => beqPairs xs ys
  | .noneVal, .noneVal => true
  | _, _ => false
where
  beqList : List PyVal → List PyVal → Bool
    | [], [] => true
    | x :: xs, y :: ys => PyVal.beq x y && beqList xs ys
    | _, _ => false
  beqPairs : List (String × PyVal) → List (String × PyVal) → Bool
    | [], [] => true
    | p :: ps, q :: qs => p.1 == q.1 && PyVal.beq p.2 q.2 && beqPairs ps qs
    | _, _ => false

instance : BEq PyVal := ⟨PyVal.beq⟩

/-- A Python dict, embedded as an insertion-ordered association list. -/
abbrev PyDict := List (String × PyVal)

/-- `d[k] = v` on a Python dict: replace the value in place when the key
exists (position preserved), otherwise append the new key at the end. -/
def dictSet (d : PyDict) (k : String) (v : PyVal) : PyDict :=
  if d.any (fun p => p.1 == k) then
    d.map (fun p => if p.1 == k then (k, v) else p)
  else d ++ [(k, v)]

/-- `d.update(other)`: `d[k] = v` for each pair of `other`, in order. -/
def dictUpdate (d other : PyDict) : PyDict :=
  other.foldl (fun acc p => dictSet acc p.1 p.2) d

/-- `k in d`. -/
def dictHasKey (d : PyDict) (k : String) : Bool :=
  d.any (fun p => p.1 == k)

/-- `d.get(k, dflt)`. -/
def dictGetD (d : PyDict) (k : String) (dflt : PyVal) : PyVal :=
  (List.lookup k d).getD dflt

/-- View a value as a dict, when it is one. -/
def PyVal.asDict : PyVal → Option PyDict
  | .dict d => some d
  | _ => Option.none

/-- The Python exceptions the service layer raises. -/
inductive PyError where
  | valueError (msg : String)
  | attributeError
  | typeError
deriving DecidableEq, Repr

/-! ## Graph search service (`graph_search_service.py`) -/

/-- A node as returned by the graph database collaborator: internal id,
label set, and property map. -/
structure Neo4jNode where
  node_id : Int
  labels : List String
  props : PyDict

/-- The `where_conditions` list built on lines 42-45: one
`n.<key> = $filter_<key>` condition per filter entry. -/
def searchWhereConditions (filters : PyDict) : List String :=
  filters.map (fun p => "n." ++ p.1 ++ " = $filter_" ++ p.1)

/-- The `params` dict: `{'limit': limit}` then one `filter_<key>` entry
per filter. -/
def searchParams (filters : PyDict) (limit : Nat) : PyDict :=
  filters.foldl (fun acc p => dictSet acc ("filter_" ++ p.1) p.2)
    [("limit", PyVal.int limit)]

/-- Line 47: the `WHERE` clause is the empty string when there are no
filter conditions. -/
def searchWhereClause (filters : PyDict) : String :=
  let conds := searchWhereConditions filters
  if conds.isEmpty then ""
  else "WHERE " ++ String.intercalate " AND " conds

/-- The Cypher query assembled on lines 49-54.  The result limit appears
only as the query parameter `$limit`. -/
def searchQuery (node_type : String) (filters : PyDict) : String :=
  "\n        MATCH (n:" ++ node_type ++ ")\n        "
    ++ searchWhereClause filters
    ++ "\n        RETURN n\n        LIMIT $limit\n        "

/-- Whether a node satisfies every property-equality filter. -/
def nodeMatchesFilters (n : Neo4jNode) (filters : PyDict) : Bool :=
  filters.all (fun p => (List.lookup p.1 n.props) == some p.2)

/-- The database collaborator's semantics for the query shape of
`search_nodes_by_type`: `MATCH (n:<type>) [WHERE ...] RETURN n LIMIT
$limit` keeps the nodes carrying the label that satisfy the filters and
returns at most `$limit` rows — the limit is enforced by the database,
not by the client. -/
def cypherSearchByType (dataset : List Neo4jNode) (node_type : String)
    (filters : PyDict) (limit : Nat) : List Neo4jNode :=
  (dataset.filter (fun n =>
    n.labels.contains node_type && nodeMatchesFilters n filters)).take limit

/-- The per-row post-processing of lines 60-65: `dict(node)` plus the
`_id` and `_labels` keys. -/
def nodeToDict (n : Neo4jNode) : PyDict :=
  dictSet (dictSet n.props "_id" (PyVal.int n.node_id))
    "_labels" (PyVal.list (n.labels.map PyVal.str))

/-- `GraphSearchService.search_nodes_by_type` run against a dataset held
by the database collaborator: default absent filters to `{}`, send the
assembled query and params, and convert each returned row.  The client
loop converts every row it receives — it performs no truncation of its
own. -/
def search_nodes_by_type (dataset : List Neo4jNode) (node_type : String)
    (filters : Option PyDict) (limit : Nat) : List PyDict :=
  let fs := filters.getD []
  (cypherSearchByType dataset node_type fs limit).map nodeToDict

/-- One row of the aggregation query's result: start node, end node and
the relationship count. -/
structure AggRow where
  start_node : Neo4jNode
  end_node : Neo4jNode
  rel_count : Int

/-- The Cypher query assembled on lines 354-359. -/
def aggregateQuery (relationship_type : String) : String :=
  "\n        MATCH (start)-[r:" ++ relationship_type
    ++ "]->(end)\n        RETURN start, end, count(r) as relationship_count\n        ORDER BY relationship_count DESC\n        LIMIT 100\n        "

/-- The aggregation kinds accepted on line 351. -/
def supportedAggregations : List String :=
  ["count", "avg", "sum", "min", "max"]

/-- `GraphSearchService.aggregate_by_relationship`, with the database
collaborator `db` passed explicitly.  Returns the outcome together with
the number of times `db.cypher_query` was invoked.  An unsupported
aggregation kind raises `ValueError` on line 352, before the query is
built or sent. -/
def aggregate_by_relationship (db : String → List AggRow)
    (relationship_type aggregation : String) :
    Except PyError (List PyDict) × Nat :=
  if (supportedAggregations.contains aggregation) = false then
    (.error (.valueError ("Unsupported aggregation type: " ++ aggregation)), 0)
  else
    let rows := db (aggregateQuery relationship_type)
    (.ok (rows.map (fun row =>
      [("start_node", PyVal.dict (nodeToDict row.start_node)),
       ("end_node", PyVal.dict (nodeToDict row.end_node)),
       ("relationship_count", PyVal.int row.rel_count)])), 1)

/-! ## LLM enrichment service (`llm_graph_service.py`) -/

/-- `LLMGraphService.enrich_node_data`, from the point where the provider
reply's message content has been extracted (line 306).  `parse` embeds
`json.loads`: `Option.none` means the content is not valid JSON, in which
case the `json.JSONDecodeError` handler on lines 327-329 raises
`ValueError("LLM returned invalid JSON response")`.  On a successful
parse the merge of lines 309-322 operates on `node_data.copy()`, so the
caller's mapping is never mutated; the second component of the result is
the post-call state of the caller's `node_data`.  A parse result that is
not a dict makes `enrichment_data.get` raise `AttributeError`, which the
generic handler logs and re-raises.  (`'timezone' in globals()` is always
false because `timezone` is never imported, so `enriched_at` is `None`.) -/
def enrich_node_data (parse : String → Option PyVal)
    (node_data : PyDict) (content : String) :
    Except PyError PyDict × PyDict :=
  match parse content with
  | Option.none =>
    (.error (.valueError "LLM returned invalid JSON response"), node_data)
  | some v =>
    match v.asDict with
    | Option.none => (.error .attributeError, node_data)
    | some ed =>
      match (dictGetD ed "suggested_properties" (PyVal.dict [])).asDict with
      | Option.none => (.error .typeError, node_data)
      | some sp =>
        let enriched1 := dictUpdate node_data sp
        let enriched2 :=
          if dictHasKey enriched1 "tags" then enriched1
          else dictSet enriched1 "tags" (dictGetD ed "suggested_tags" (PyVal.list []))
        let enrichmentMeta := PyVal.dict
          [("confidence", dictGetD ed "confidence_score" (PyVal.num 0)),
           ("reasoning", dictGetD ed "reasoning" (PyVal.str "")),
           ("enriched_at", PyVal.noneVal)]
        (.ok (dictSet enriched2 "_enrichment" enrichmentMeta), node_data)

/-! ## Theorems -/

/-- Substring containment is preserved by prepending more text. -/
theorem containsSubstr_append_right (a b pat : String)
    (h : containsSubstr b pat = true) : containsSubstr (a ++ b) pat = true := by
  unfold containsSubstr at h ⊢
  rw [decide_eq_true_iff] at h ⊢
  obtain ⟨s, t, hst⟩ := h
  exact ⟨a.data ++ s, t, by rw [String.data_append, ← hst]; simp⟩

/-- C4: for a fixed environment, running discovery twice yields the same
registry contents as a single run; the second run fully replaces the
first run's registry; and the final registry does not depend on the
registry state present before the run (the state only ever receives a
plain assignment computed solely from the environment). -/
theorem discovery_deterministic_and_replacing
    (env : List App) (st st' : GraphModelDiscovery) :
    (discover_graph_models env (discover_graph_models env st).2).1
      = (discover_graph_models env st).1
    ∧ (discover_graph_models env (discover_graph_models env st).2).2.discovered_models
      = (discover_graph_models env st).2.discovered_models
    ∧ (discover_graph_models env st').2.discovered_models
      = (discover_graph_models env st).2.discovered_models
    ∧ (discover_graph_models env st).2.discovered_models
      = (discover_graph_models env st).1 :=
  ⟨rfl, rfl, rfl, rfl⟩

/-- C8: an app whose `graph/` sub-directory does not exist contributes
zero entries, raises nothing, and logs nothing above debug level. -/
theorem missing_graph_dir_skipped (app : App)
    (h : app.graphFiles = Option.none) :
    (_discover_app_graph_models app).1 = []
    ∧ ∀ e ∈ (_discover_app_graph_models app).2, e.level = LogLevel.debug := by
  simp [_discover_app_graph_models, h]

theorem missing_graph_dir_skipped_witness :
    (_discover_app_graph_models ⟨"superapp.apps.crm", Option.none⟩).1 = []
    ∧ ∀ e ∈ (_discover_app_graph_models ⟨"superapp.apps.crm", Option.none⟩).2,
        e.level = LogLevel.debug :=
  missing_graph_dir_skipped ⟨"superapp.apps.crm", Option.none⟩ rfl

/-- C9: `register_models` emits exactly one log line per discovered
`(app, module, model)` triple, each at info level, raises nothing, and
leaves the registry state unchanged. -/
theorem register_models_one_line_per_class (st : GraphModelDiscovery) :
    (register_models st).2 = st
    ∧ (register_models st).1.length = totalModelCount st.discovered_models
    ∧ ∀ e ∈ (register_models st).1, e.level = LogLevel.info := by
  refine ⟨rfl, ?_, ?_⟩
  · simp [register_models, totalModelCount, List.length_flatMap,
      Function.comp_def, List.length_map]
  · intro e he
    simp only [register_models, List.mem_flatMap, List.mem_map] at he
    obtain ⟨app, _, modFile, _, model, _, rfl⟩ := he
    rfl

/-- A concrete populated registry with two discovered classes. -/
def sampleRegistry : GraphModelDiscovery :=
  { discovered_models :=
      [("superapp.apps.crm",
        [("nodes",
          [("Person", .mk "<class 'superapp.apps.crm.graph.nodes.Person'>"
              [.mk "<class 'neomodel.core.StructuredNode'>" []]),
           ("Organization", .mk
              "<class 'superapp.apps.crm.graph.nodes.Organization'>"
              [.mk "<class 'neomodel.core.StructuredNode'>" []])])])],
    discovered_relationships := [] }

theorem register_models_one_line_per_class_witness :
    (register_models sampleRegistry).2 = sampleRegistry
    ∧ (register_models sampleRegistry).1.length
        = totalModelCount sampleRegistry.discovered_models
    ∧ ∀ e ∈ (register_models sampleRegistry).1, e.level = LogLevel.info :=
  register_models_one_line_per_class sampleRegistry

/-- C10: querying `get_models_by_app` for a name absent from the registry
(including any name queried against the initial, never-populated state)
returns an empty mapping, raises nothing, and leaves the registry
unchanged. -/
theorem get_models_by_app_absent (st : GraphModelDiscovery) (app_name : String)
    (h : List.lookup app_name st.discovered_models = Option.none) :
    get_models_by_app st app_name = ([], st) := by
  simp [get_models_by_app, h]

theorem get_models_by_app_absent_witness :
    get_models_by_app GraphModelDiscovery.init "superapp.apps.crm"
      = ([], GraphModelDiscovery.init) :=
  get_models_by_app_absent GraphModelDiscovery.init "superapp.apps.crm" rfl

/-- C5: `aggregate_by_relationship` called with an aggregation kind
outside `{count, avg, sum, min, max}` raises `ValueError` before any
query is issued: the database collaborator is invoked zero times. -/
theorem aggregate_unsupported_kind_no_db_call (db : String → List AggRow)
    (relationship_type aggregation : String)
    (h : supportedAggregations.contains aggregation = false) :
    (aggregate_by_relationship db relationship_type aggregation).1
      = .error (.valueError ("Unsupported aggregation type: " ++ aggregation))
    ∧ (aggregate_by_relationship db relationship_type aggregation).2 = 0 := by
  have h' : aggregation ∉ supportedAggregations := by simpa using h
  simp [aggregate_by_relationship, h']

theorem aggregate_unsupported_kind_no_db_call_witness :
    (aggregate_by_relationship (fun _ => []) "WORKS_FOR" "median").1
      = .error (.valueError ("Unsupported aggregation type: " ++ "median"))
    ∧ (aggregate_by_relationship (fun _ => []) "WORKS_FOR" "median").2 = 0 :=
  aggregate_unsupported_kind_no_db_call (fun _ => []) "WORKS_FOR" "median"
    (by decide)

/-- C6: when the provider reply's message content is not valid JSON,
`enrich_node_data` fails with
`ValueError("LLM returned invalid JSON response")` and the entity mapping
passed in is left completely unmodified — no property, tag or provenance
block is merged into it. -/
theorem enrich_invalid_json_fails_unmodified
    (parse : String → Option PyVal) (node_data : PyDict) (content : String)
    (h : parse content = Option.none) :
    (enrich_node_data parse node_data content).1
      = .error (.valueError "LLM returned invalid JSON response")
    ∧ (enrich_node_data parse node_data content).2 = node_data := by
  simp [enrich_node_data, h]

theorem enrich_invalid_json_fails_unmodified_witness :
    (enrich_node_data (fun _ => Option.none)
        [("name", PyVal.str "Ada")] "I am not JSON").1
      = .error (.valueError "LLM returned invalid JSON response")
    ∧ (enrich_node_data (fun _ => Option.none)
        [("name", PyVal.str "Ada")] "I am not JSON").2
      = [("name", PyVal.str "Ada")] :=
  enrich_invalid_json_fails_unmodified (fun _ => Option.none)
    [("name", PyVal.str "Ada")] "I am not JSON" rfl

/-- C7: with an empty (or absent) filter mapping, `search_nodes_by_type`
generates no `WHERE` clause; the limit travels as the `$limit` query
parameter (it appears in the params dict and in the query text, and the
database enforces it); and against a dataset containing 15 matching nodes
a `limit=10` call returns exactly 10 results. -/
theorem search_empty_filters_limit (dataset : List Neo4jNode)
    (node_type : String)
    (h : (dataset.filter (fun n => n.labels.contains node_type)).length = 15) :
    searchWhereClause [] = ""
    ∧ List.lookup "limit" (searchParams [] 10) = some (PyVal.int 10)
    ∧ containsSubstr (searchQuery node_type []) "LIMIT $limit" = true
    ∧ (search_nodes_by_type dataset node_type Option.none 10).length = 10 := by
  refine ⟨rfl, rfl, ?_, ?_⟩
  · unfold searchQuery
    exact containsSubstr_append_right _ _ _ (by decide)
  · simp only [search_nodes_by_type, cypherSearchByType, Option.getD]
    rw [List.length_map, List.length_take]
    have h15 : (dataset.filter (fun n =>
        n.labels.contains node_type && nodeMatchesFilters n [])).length = 15 := by
      simpa [nodeMatchesFilters] using h
    rw [h15]
    rfl

theorem search_empty_filters_limit_witness :
    searchWhereClause [] = ""
    ∧ List.lookup "limit" (searchParams [] 10) = some (PyVal.int 10)
    ∧ containsSubstr (searchQuery "Person" []) "LIMIT $limit" = true
    ∧ (search_nodes_by_type (List.replicate 15 ⟨1, ["Person"], []⟩)
        "Person" Option.none 10).length = 10 :=
  search_empty_filters_limit (List.replicate 15 ⟨1, ["Person"], []⟩)
    "Person" (by decide)

/-- Dropping the files whose import raises leaves the discovered model
mapping of a unit unchanged: failing files contribute zero entries and do
not disturb the processing of their siblings. -/
theorem discoverFiles_models_ok_only (appName : String) (files : List PyFile) :
    (discoverFiles appName files).1
      = (discoverFiles appName (files.filter (fun f => !f.importFails))).1 := by
  induction files with
  | nil => rfl
  | cons f fs ih =>
    cases hf : f.imported with
    | ok attrs =>
      by_cases hd : strStartsWith f.stem "__" <;>
        by_cases hemp : (_extract_neomodel_classes attrs).isEmpty <;>
          simp [discoverFiles, List.filter_cons, PyFile.importFails, hd, hf,
            hemp, ih]
    | importError e =>
      by_cases hd : strStartsWith f.stem "__" <;>
        simp [discoverFiles, List.filter_cons, PyFile.importFails, hd, hf, ih]
    | otherError e =>
      by_cases hd : strStartsWith f.stem "__" <;>
        simp [discoverFiles, List.filter_cons, PyFile.importFails, hd, hf, ih]

/-- The log lines produced by scanning a tail of the file list survive
prepending another file. -/
theorem discoverFiles_logs_mono (appName : String) (g : PyFile)
    (fs : List PyFile) :
    ∀ e ∈ (discoverFiles appName fs).2,
      e ∈ (discoverFiles appName (g :: fs)).2 := by
  intro e he
  by_cases hgd : strStartsWith g.stem "__"
  · simpa [discoverFiles, hgd] using he
  · cases hg : g.imported with
    | ok attrs =>
      by_cases hemp : (_extract_neomodel_classes attrs).isEmpty <;>
        simp [discoverFiles, hgd, hg, hemp, he]
    | importError e' => simp [discoverFiles, hgd, hg, he]
    | otherError e' => simp [discoverFiles, hgd, hg, he]

/-- C1: during a discovery pass over one unit, a file whose import raises
contributes zero entries while every sibling file is still processed and
its classes still appear (the model mapping equals the one computed from
the cleanly-importing files alone); an `ImportError` is logged as a
warning and any other exception as an error; the scan returns normally,
so neither exception propagates. -/
theorem import_failure_isolated (appName : String) (files : List PyFile) :
    (discoverFiles appName files).1
      = (discoverFiles appName (files.filter (fun f => !f.importFails))).1
    ∧ ∀ f ∈ files, strStartsWith f.stem "__" = false →
        (∀ e, f.imported = .importError e →
          LogEntry.mk .warning
            ("Failed to import " ++ appName ++ ".graph." ++ f.stem ++ ": " ++ e)
            ∈ (discoverFiles appName files).2)
        ∧ (∀ e, f.imported = .otherError e →
          LogEntry.mk .error
            ("Error processing " ++ appName ++ ".graph." ++ f.stem ++ ": " ++ e)
            ∈ (discoverFiles appName files).2) := by
  refine ⟨discoverFiles_models_ok_only appName files, ?_⟩
  induction files with
  | nil => intro f hf; cases hf
  | cons g gs ih =>
    intro f hf hd
    rcases List.mem_cons.mp hf with h | h
    · subst h
      exact ⟨fun e he => by simp [discoverFiles, hd, he],
             fun e he => by simp [discoverFiles, hd, he]⟩
    · exact ⟨fun e he => discoverFiles_logs_mono appName g gs _
               (((ih f h hd).1) e he),
             fun e he => discoverFiles_logs_mono appName g gs _
               (((ih f h hd).2) e he)⟩

/-- The three-file scenario from the spec: the middle file raises on
import, files 1 and 3 still register their classes. -/
def crmNodesFile : PyFile :=
  ⟨"nodes", .ok [("Person", .pyClass (.mk
    "<class 'superapp.apps.crm.graph.nodes.Person'>"
    [.mk "<class 'neomodel.core.StructuredNode'>" []]))]⟩

def crmBrokenFile : PyFile :=
  ⟨"broken", .importError "No module named missing_dep"⟩

def crmRelsFile : PyFile :=
  ⟨"relationships", .ok [("WorksFor", .pyClass (.mk
    "<class 'superapp.apps.crm.graph.relationships.WorksFor'>"
    [.mk "<class 'neomodel.relationship.StructuredRel'>" []]))]⟩

theorem import_failure_isolated_witness :
    (discoverFiles "superapp.apps.crm"
        [crmNodesFile, crmBrokenFile, crmRelsFile]).1
      = (discoverFiles "superapp.apps.crm"
          ([crmNodesFile, crmBrokenFile, crmRelsFile].filter
            (fun f => !f.importFails))).1
    ∧ LogEntry.mk .warning
        ("Failed to import " ++ "superapp.apps.crm" ++ ".graph."
          ++ "broken" ++ ": " ++ "No module named missing_dep")
        ∈ (discoverFiles "superapp.apps.crm"
            [crmNodesFile, crmBrokenFile, crmRelsFile]).2 :=
  ⟨(import_failure_isolated "superapp.apps.crm"
      [crmNodesFile, crmBrokenFile, crmRelsFile]).1,
   (((import_failure_isolated "superapp.apps.crm"
        [crmNodesFile, crmBrokenFile, crmRelsFile]).2
      crmBrokenFile (by simp) (by decide)).1
      "No module named missing_dep" (by simp [crmBrokenFile]))⟩

/-- A direct base is in particular an ancestor. -/
theorem mem_bases_mem_ancestors (c b : PyClass) (hb : b ∈ c.bases) :
    b ∈ c.ancestors := by
  cases c with
  | mk r bs =>
    rw [PyClass.bases] at hb
    rw [PyClass.ancestors, List.mem_append]
    exact Or.inl hb

/-- The code's direct-base marker test implies the spec's ancestry-chain
marker test. -/
theorem isNeomodelClass_implies_specAncestry (c : PyClass)
    (h : isNeomodelClass c = true) : entityClassPerSpecAncestry c = true := by
  rw [isNeomodelClass, List.any_eq_true] at h
  obtain ⟨b, hb, hmark⟩ := h
  rw [entityClassPerSpecAncestry, List.any_eq_true]
  exact ⟨b, mem_bases_mem_ancestors c b hb, hmark⟩

/-- C2 (amended): a symbol of a successfully imported module is
classified as an entity class if and only if it is a class at least one
of whose DIRECT base classes has a textual representation containing
`'neomodel'`; in particular a class none of whose ancestors' textual
representations contain the marker is never classified. -/
theorem classified_iff_direct_base_marker (attrs : List (String × Attr))
    (nm : String) (c : PyClass) :
    ((nm, c) ∈ _extract_neomodel_classes attrs
      ↔ (nm, Attr.pyClass c) ∈ attrs ∧ isNeomodelClass c = true)
    ∧ (entityClassPerSpecAncestry c = false →
        (nm, c) ∉ _extract_neomodel_classes attrs) := by
  have hiff : (nm, c) ∈ _extract_neomodel_classes attrs
      ↔ (nm, Attr.pyClass c) ∈ attrs ∧ isNeomodelClass c = true := by
    constructor
    · intro h
      rw [_extract_neomodel_classes, List.mem_filterMap] at h
      obtain ⟨⟨nm', a⟩, ha, hf⟩ := h
      cases a with
      | pyClass c' =>
        by_cases hn : isNeomodelClass c' = true
        · simp only [hn, if_true] at hf
          have hp := Option.some.inj hf
          rw [Prod.mk.injEq] at hp
          obtain ⟨h1, h2⟩ := hp
          subst h1
          subst h2
          exact ⟨ha, hn⟩
        · simp [hn] at hf
      | nonClass => simp at hf
    · intro ⟨ha, hn⟩
      rw [_extract_neomodel_classes, List.mem_filterMap]
      exact ⟨(nm, .pyClass c), ha, by simp [hn]⟩
  refine ⟨hiff, fun hspec hmem => ?_⟩
  have := (hiff.mp hmem).2
  rw [isNeomodelClass_implies_specAncestry c this] at hspec
  cases hspec

/-- A class directly extending a `neomodel` base. -/
def personClass : PyClass :=
  .mk "<class 'superapp.apps.crm.graph.nodes.Person'>"
    [.mk "<class 'neomodel.core.StructuredNode'>" []]

/-- A class with no `neomodel` marker anywhere in its ancestry. -/
def plainHelperClass : PyClass :=
  .mk "<class 'superapp.apps.crm.graph.utils.Helper'>"
    [.mk "<class 'object'>" []]

theorem classified_iff_direct_base_marker_witness :
    ("Person", personClass) ∈ _extract_neomodel_classes
        [("Person", .pyClass personClass), ("helper_fn", .nonClass)]
    ∧ ("Helper", plainHelperClass) ∉ _extract_neomodel_classes
        [("Helper", .pyClass plainHelperClass)] :=
  ⟨(classified_iff_direct_base_marker
      [("Person", .pyClass personClass), ("helper_fn", .nonClass)]
      "Person" personClass).1.mpr ⟨by simp, by decide⟩,
   (classified_iff_direct_base_marker
      [("Helper", .pyClass plainHelperClass)]
      "Helper" plainHelperClass).2 (by decide)⟩

/-- A class whose grandparent base carries the `neomodel` marker but
whose direct base does not: a subclass of a discovered node class. -/
def employeeClass : PyClass :=
  .mk "<class 'superapp.apps.crm.graph.nodes.Employee'>"
    [.mk "<class 'superapp.apps.crm.graph.nodes.Person'>"
      [.mk "<class 'neomodel.core.StructuredNode'>" []]]

/-- C2 counterexample: `Employee` has an ancestor in its ancestry chain
(its grandparent base) whose textual representation contains
`'neomodel'`, yet the engine does not classify it as an entity class —
the code inspects `__bases__`, the direct bases, only.  This refutes the
claim's "if" direction as stated. -/
theorem ancestry_marker_not_classified_counterexample :
    entityClassPerSpecAncestry employeeClass = true
    ∧ _extract_neomodel_classes [("Employee", .pyClass employeeClass)] = [] :=
  ⟨by decide, rfl⟩

/-- C3 (amended): an installed unit is processed, and can contribute to
the result, if and only if its dotted name CONTAINS the substring
`'superapp.apps.'`; units whose names do not contain the substring
contribute nothing. -/
theorem unit_processed_iff_name_contains_marker (env : List App)
    (st : GraphModelDiscovery) :
    (discover_graph_models env st).1
      = (env.filter (fun a => containsSubstr a.name "superapp.apps.")).filterMap
          (fun a =>
            if (_discover_app_graph_models a).1.isEmpty then Option.none
            else some (a.name, (_discover_app_graph_models a).1)) := by
  show discoverAll env = _
  induction env with
  | nil => rfl
  | cons a rest ih =>
    by_cases hc : containsSubstr a.name "superapp.apps."
    · by_cases hm : (_discover_app_graph_models a).1.isEmpty <;>
        simp [discoverAll, List.filter_cons, hc, hm, ih]
    · simp [discoverAll, List.filter_cons, hc, ih]

/-- A third-party unit whose dotted name contains `'superapp.apps.'`
without starting with it. -/
def vendorPersonClass : PyClass :=
  .mk "<class 'vendor.superapp.apps.crm.graph.nodes.Person'>"
    [.mk "<class 'neomodel.core.StructuredNode'>" []]

def vendorApp : App :=
  ⟨"vendor.superapp.apps.crm",
   some [⟨"nodes", .ok [("Person", .pyClass vendorPersonClass)]⟩]⟩

/-- C3 counterexample: the unit `vendor.superapp.apps.crm` does not match
the namespace prefix `'superapp.apps.'` (its name does not start with
it), yet discovery processes it and it contributes its entries to the
result — the code tests substring containment, not a prefix match.  This
refutes the claim's "only if" direction as stated. -/
theorem nonprefix_unit_processed_counterexample :
    strStartsWith "vendor.superapp.apps.crm" "superapp.apps." = false
    ∧ (discover_graph_models [vendorApp] GraphModelDiscovery.init).1
        = [("vendor.superapp.apps.crm",
            [("nodes", [("Person", vendorPersonClass)])])] :=
  ⟨by decide, rfl⟩

end GraphSpec
